import Mathlib

/-!
Shallow embedding of `src/main.py` (a Dialogflow CX webhook fulfillment
endpoint): the phone-number normalizer `format_phone_number`, the Twilio
helper `send_whatsapp_message`, and the `webhook` handler with its feedback
and recommend branches.  External collaborators (Firestore availability,
Firestore write outcome, Twilio send outcome) are modelled by an explicit
environment, and the side effects the handler performs (Firestore `add`
calls and Twilio `create` calls) are recorded in an explicit trace.
-/

namespace Main

/-- The digit filtering step of `format_phone_number`:
`''.join(filter(str.isdigit, number))`, kept as a list of characters. -/
def cleanDigits (number : String) : List Char :=
  number.toList.filter Char.isDigit

/-- `format_phone_number` from `src/main.py` lines 69-78:
strip non-digits; if the cleaned string starts with `07` and has length 11,
return `"+44" + cleaned[1:]`; otherwise return the cleaned string as is. -/
def format_phone_number (number : String) : String :=
  let cleaned_number := cleanDigits number
  if cleaned_number.take 2 = ['0', '7'] ∧ cleaned_number.length = 11 then
    "+44" ++ String.mk (cleaned_number.drop 1)
  else
    String.mk cleaned_number

/-- Collaborator environment: whether the Firestore handle `db` is non-None,
whether a Firestore `add` call succeeds, whether the Twilio `create` call
succeeds, and the text of the Twilio error when it fails. -/
structure Env where
  dbAvailable : Bool
  storeAddOk : Bool
  twilioOk : Bool
  twilioErr : String
deriving DecidableEq, Repr

/-- `send_whatsapp_message` from `src/main.py` lines 44-67: returns
`(True, "Message sent successfully.")` when the Twilio call succeeds and
`(False, "Failed to send message: " + e)` when it raises. -/
def send_whatsapp_message (env : Env) (to_number : String)
    (message_body : String) : Bool × String :=
  if env.twilioOk then
    (true, "Message sent successfully.")
  else
    (false, "Failed to send message: " ++ env.twilioErr)

/-- The parsed request body as the handler reads it:
`intentInfo.displayName`, `fulfillmentInfo.tag` (present in the request
shape though the handler never reads it), and `sessionInfo.parameters`. -/
structure FulfillmentRequest where
  intentName : Option String
  tag : Option String
  parameters : List (String × String)
deriving DecidableEq, Repr

/-- The response body: a list of messages, each a list of text strings
(`{"fulfillmentResponse": {"messages": [{"text": {"text": [...]}}]}}`). -/
structure FulfillmentResponse where
  messages : List (List String)
deriving DecidableEq, Repr

/-- A response with a single message holding a single string, the shape
every branch of the handler builds. -/
def textResponse (s : String) : FulfillmentResponse :=
  ⟨[[s]]⟩

/-- The default fallback response (`src/main.py` lines 89-95). -/
def fallbackResponse : FulfillmentResponse :=
  textResponse "I'm sorry, I didn't understand that. Could you please rephrase?"

/-- Side effects performed while handling one request: the texts passed to
Firestore `add` calls (attempted, whether or not they succeed) and the
`(to, body)` pairs passed to Twilio `create` calls. -/
structure Trace where
  appends : List String
  sends : List (String × String)
deriving DecidableEq, Repr

/-- Python `dict.get` on the parameter bag. -/
def getParam (params : List (String × String)) (key : String) : Option String :=
  params.lookup key

/-- Python truthiness of an optional string parameter: `None` and `""` are
falsy, every other string is truthy. -/
def truthy : Option String → Bool
  | none => false
  | some s => !(s == "")

/-- `webhook` from `src/main.py` lines 80-176.  `none` models a malformed
or non-JSON body: `request.get_json(silent=True, force=True)` returns
`None`, `req.get` then raises `AttributeError`, and the outer `except`
converts it into the generic error response.  For a parsed body the
handler branches on the intent display name only. -/
def webhook (env : Env) (req : Option FulfillmentRequest) :
    FulfillmentResponse × Trace :=
  match req with
  | none =>
      (textResponse
        "An unexpected error occurred: 'NoneType' object has no attribute 'get'. Please try again later.",
       ⟨[], []⟩)
  | some r =>
      let intent_display_name := r.intentName
      let parameters := r.parameters
      if intent_display_name = some "FeedbackIntent" then
        let feedback_text := getParam parameters "feedback_text"
        if truthy feedback_text && env.dbAvailable then
          if env.storeAddOk then
            (textResponse "Thank you for your feedback! It has been recorded.",
             ⟨[feedback_text.getD ""], []⟩)
          else
            (textResponse
              "Sorry, I couldn't save your feedback at this time. Please try again later.",
             ⟨[feedback_text.getD ""], []⟩)
        else
          (textResponse
            "Sorry, I couldn't save your feedback because the database is not connected or no text was provided.",
           ⟨[], []⟩)
      else if intent_display_name = some "RecommendIntent" then
        let recipient_number := getParam parameters "recipient_phone_number"
        let share_link := "https://www.google.com/search?q=https://example.com/share"
        let message_body :=
          "Hello! I wanted to recommend this service to you. Check it out here: " ++ share_link
        if truthy recipient_number then
          let formatted_number := format_phone_number (recipient_number.getD "")
          let response_message := (send_whatsapp_message env formatted_number message_body).2
          (textResponse response_message, ⟨[], [(formatted_number, message_body)]⟩)
        else
          (textResponse "Sorry, I did not receive a valid phone number. Please try again.",
           ⟨[], []⟩)
      else
        (fallbackResponse, ⟨[], []⟩)

/-- An environment where every collaborator is available and succeeds. -/
def envAllOk : Env :=
  ⟨true, true, true, "boom"⟩

/-- Every character of the cleaned digit string is a digit. -/
theorem cleanDigits_all_digit (s : String) :
    ∀ c ∈ cleanDigits s, c.isDigit = true := by
  intro c hc
  exact (List.mem_filter.mp hc).2

/-- Every branch of the handler returns exactly one message holding exactly
one string. -/
theorem webhook_shape (env : Env) (req : Option FulfillmentRequest) :
    ∃ s, (webhook env req).1.messages = [[s]] := by
  unfold webhook
  cases req with
  | none => exact ⟨_, rfl⟩
  | some r =>
      dsimp only
      split
      · split
        · split
          · exact ⟨_, rfl⟩
          · exact ⟨_, rfl⟩
        · exact ⟨_, rfl⟩
      · split
        · split
          · exact ⟨_, rfl⟩
          · exact ⟨_, rfl⟩
        · exact ⟨_, rfl⟩

/-- C1 counterexample: `format_phone_number "1"` returns `"1"`, which does
not begin with a plus sign, and the empty input returns `""`, not `"+"`. -/
theorem C1_counterexample :
    (format_phone_number "1").toList.head? ≠ some '+' ∧
    format_phone_number "" ≠ "+" := by decide

/-- C1 (amended): the output of `format_phone_number` begins with a plus
sign exactly when the cleaned digit string starts with `07` and has length
11; in every other case the output is the cleaned digit string itself,
and the empty input yields the empty string. -/
theorem C1_plus_only_uk (s : String) :
    ((format_phone_number s).toList.head? = some '+' ↔
      ((cleanDigits s).take 2 = ['0', '7'] ∧ (cleanDigits s).length = 11)) ∧
    format_phone_number "" = "" := by
  constructor
  · unfold format_phone_number
    dsimp only
    split
    · rename_i h
      refine ⟨fun _ => h, fun _ => ?_⟩
      show (String.data ("+44" ++ String.mk ((cleanDigits s).drop 1))).head? = some '+'
      rw [String.data_append]
      rfl
    · rename_i h
      refine ⟨fun hhead => absurd ?_ h, fun hc => absurd hc h⟩
      exfalso
      replace hhead : (cleanDigits s).head? = some '+' := hhead
      have hmem : '+' ∈ cleanDigits s :=
        List.mem_of_mem_head? (by rw [hhead]; rfl)
      exact absurd (cleanDigits_all_digit s '+' hmem) (by decide)
  · decide

/-- C2: when the cleaned digit string starts with `07` and has length 11,
`format_phone_number` replaces the leading `0` with `+44`, producing `+44`
followed by the remaining 10 digits of the cleaned string. -/
theorem C2_uk_mobile (s : String)
    (h1 : (cleanDigits s).take 2 = ['0', '7'])
    (h2 : (cleanDigits s).length = 11) :
    (format_phone_number s).toList = '+' :: '4' :: '4' :: (cleanDigits s).drop 1 ∧
    ((cleanDigits s).drop 1).length = 10 := by
  constructor
  · unfold format_phone_number
    dsimp only
    rw [if_pos ⟨h1, h2⟩]
    show String.data ("+44" ++ String.mk ((cleanDigits s).drop 1)) = _
    rw [String.data_append]
    rfl
  · simp [h2]

/-- C2 witness: the input `"07123456789"` satisfies both hypotheses and
normalizes to `"+447123456789"`. -/
theorem C2_uk_mobile_witness :
    (cleanDigits "07123456789").take 2 = ['0', '7'] ∧
    (cleanDigits "07123456789").length = 11 ∧
    (format_phone_number "07123456789").toList =
      '+' :: '4' :: '4' :: (cleanDigits "07123456789").drop 1 :=
  ⟨by decide, by decide,
   (C2_uk_mobile "07123456789" (by decide) (by decide)).1⟩

/-- C3 counterexample: a request whose `tag` is `feedback-recommend`
(resp. `recommend-share`) but whose intent name is something else falls
through to the generic fallback and triggers no store or gateway call: the
handler never reads the tag. -/
theorem C3_counterexample :
    (webhook envAllOk (some ⟨some "WelcomeIntent", some "feedback-recommend",
        [("feedback_text", "great")]⟩)).1 = fallbackResponse ∧
    (webhook envAllOk (some ⟨some "WelcomeIntent", some "feedback-recommend",
        [("feedback_text", "great")]⟩)).2.appends = [] ∧
    (webhook envAllOk (some ⟨some "WelcomeIntent", some "recommend-share",
        [("recipient_phone_number", "07123456789")]⟩)).1 = fallbackResponse ∧
    (webhook envAllOk (some ⟨some "WelcomeIntent", some "recommend-share",
        [("recipient_phone_number", "07123456789")]⟩)).2.sends = [] := by decide

/-- C3 (amended): the tag has no effect whatsoever on dispatch — changing
it never changes the output — and any request whose intent name is neither
`FeedbackIntent` nor `RecommendIntent` gets the fallback response with no
side effects, whatever its tag. -/
theorem C3_tag_ignored (env : Env) (r : FulfillmentRequest) (t : Option String)
    (h1 : r.intentName ≠ some "FeedbackIntent")
    (h2 : r.intentName ≠ some "RecommendIntent") :
    webhook env (some { r with tag := t }) = webhook env (some r) ∧
    webhook env (some r) = (fallbackResponse, ⟨[], []⟩) := by
  constructor
  · cases r
    rfl
  · simp [webhook, h1, h2]

/-- C3 witness: concrete instance of the amended claim at intent
`WelcomeIntent` with tag `feedback-recommend`. -/
theorem C3_tag_ignored_witness :
    webhook envAllOk (some (⟨some "WelcomeIntent",
        some "feedback-recommend", []⟩ : FulfillmentRequest)) =
      webhook envAllOk (some ⟨some "WelcomeIntent", none, []⟩) ∧
    webhook envAllOk (some ⟨some "WelcomeIntent", none, []⟩) =
      (fallbackResponse, ⟨[], []⟩) :=
  ⟨(C3_tag_ignored envAllOk ⟨some "WelcomeIntent", none, []⟩
      (some "feedback-recommend") (by decide) (by decide)).1,
   (C3_tag_ignored envAllOk ⟨some "WelcomeIntent", none, []⟩
      (some "feedback-recommend") (by decide) (by decide)).2⟩

/-- C4 counterexample: for recipient `"07123456789"` the single gateway
call uses destination `"+447123456789"` — not `"+44123456789"` as claimed,
and not channel-qualified: it does not begin with `"whatsapp:"`. -/
theorem C4_counterexample :
    (webhook envAllOk (some ⟨some "RecommendIntent", none,
        [("recipient_phone_number", "07123456789")]⟩)).2.sends.map Prod.fst =
      ["+447123456789"] ∧
    ("+447123456789" : String) ≠ "+44123456789" ∧
    ("+447123456789").toList.take 9 ≠ ("whatsapp:").toList := by decide

/-- C4 (amended): for recipient `"07123456789"` with the gateway
succeeding, `send_whatsapp_message` is called exactly once, with
destination `"+447123456789"` (bare E.164, no channel qualifier) and a
body that contains the fixed share link, and the response text equals the
gateway's success string. -/
theorem C4_recommend_send :
    (webhook envAllOk (some ⟨some "RecommendIntent", none,
        [("recipient_phone_number", "07123456789")]⟩)).2.sends =
      [("+447123456789",
        "Hello! I wanted to recommend this service to you. Check it out here: https://www.google.com/search?q=https://example.com/share")] ∧
    (∃ pre,
      ("Hello! I wanted to recommend this service to you. Check it out here: https://www.google.com/search?q=https://example.com/share" : String) =
        pre ++ "https://www.google.com/search?q=https://example.com/share") ∧
    (webhook envAllOk (some ⟨some "RecommendIntent", none,
        [("recipient_phone_number", "07123456789")]⟩)).1 =
      textResponse "Message sent successfully." :=
  ⟨by decide,
   ⟨"Hello! I wanted to recommend this service to you. Check it out here: ",
    by decide⟩,
   by decide⟩

/-- C5: a `FeedbackIntent` request carrying `feedback_text = "great"`, with
the database available and the write succeeding, yields exactly the thank
you response, and the store `add` is called exactly once with text
`"great"`. -/
theorem C5_feedback_success (env : Env) (tag : Option String)
    (params : List (String × String))
    (hdb : env.dbAvailable = true) (hok : env.storeAddOk = true)
    (hp : getParam params "feedback_text" = some "great") :
    webhook env (some ⟨some "FeedbackIntent", tag, params⟩) =
      (textResponse "Thank you for your feedback! It has been recorded.",
       ⟨["great"], []⟩) := by
  have ht : truthy (some "great") = true := by decide
  simp [webhook, hp, hdb, hok, ht]

/-- C5 witness: concrete instance with the all-OK environment. -/
theorem C5_feedback_success_witness :
    envAllOk.dbAvailable = true ∧ envAllOk.storeAddOk = true ∧
    getParam [("feedback_text", "great")] "feedback_text" = some "great" ∧
    webhook envAllOk (some ⟨some "FeedbackIntent", none,
        [("feedback_text", "great")]⟩) =
      (textResponse "Thank you for your feedback! It has been recorded.",
       ⟨["great"], []⟩) :=
  ⟨rfl, rfl, by decide,
   C5_feedback_success envAllOk none [("feedback_text", "great")]
     rfl rfl (by decide)⟩

/-- C6 counterexample: on the feedback branch with no `feedback_text`, the
response text is the code's actual string, "Sorry, I couldn't save your
feedback because the database is not connected or no text was provided.",
not the claimed "Sorry, no feedback text provided or database
unavailable." -/
theorem C6_counterexample :
    (webhook envAllOk (some ⟨some "FeedbackIntent", none, []⟩)).1 ≠
      textResponse "Sorry, no feedback text provided or database unavailable." ∧
    (webhook envAllOk (some ⟨some "FeedbackIntent", none, []⟩)).1 =
      textResponse "Sorry, I couldn't save your feedback because the database is not connected or no text was provided." := by decide

/-- C6 (amended): on the feedback branch, whenever `feedback_text` is
absent or empty or the database is unavailable, the response text is
exactly "Sorry, I couldn't save your feedback because the database is not
connected or no text was provided." and the store is never called. -/
theorem C6_feedback_missing (env : Env) (r : FulfillmentRequest)
    (hi : r.intentName = some "FeedbackIntent")
    (h : truthy (getParam r.parameters "feedback_text") = false ∨
         env.dbAvailable = false) :
    webhook env (some r) =
      (textResponse "Sorry, I couldn't save your feedback because the database is not connected or no text was provided.",
       ⟨[], []⟩) := by
  have hcond : (truthy (getParam r.parameters "feedback_text")
      && env.dbAvailable) = false := by
    rcases h with h | h <;> simp [h]
  simp [webhook, hi, hcond]

/-- C6 witness: concrete instance with an empty parameter bag. -/
theorem C6_feedback_missing_witness :
    (⟨some "FeedbackIntent", none, []⟩ : FulfillmentRequest).intentName =
      some "FeedbackIntent" ∧
    truthy (getParam ([] : List (String × String)) "feedback_text") = false ∧
    webhook envAllOk (some ⟨some "FeedbackIntent", none, []⟩) =
      (textResponse "Sorry, I couldn't save your feedback because the database is not connected or no text was provided.",
       ⟨[], []⟩) :=
  ⟨rfl, by decide,
   C6_feedback_missing envAllOk ⟨some "FeedbackIntent", none, []⟩
     rfl (Or.inl (by decide))⟩

/-- C7 counterexample: on the recommend branch with no phone number, the
response text is "Sorry, I did not receive a valid phone number. Please
try again." — not exactly the claimed "Sorry, I did not receive a valid
phone number." -/
theorem C7_counterexample :
    (webhook envAllOk (some ⟨some "RecommendIntent", none, []⟩)).1 ≠
      textResponse "Sorry, I did not receive a valid phone number." ∧
    (webhook envAllOk (some ⟨some "RecommendIntent", none, []⟩)).1 =
      textResponse "Sorry, I did not receive a valid phone number. Please try again." := by decide

/-- C7 (amended): on the recommend branch, whenever
`recipient_phone_number` is absent or empty, the response text is exactly
"Sorry, I did not receive a valid phone number. Please try again." and the
gateway is never called. -/
theorem C7_recommend_missing (env : Env) (r : FulfillmentRequest)
    (hi : r.intentName = some "RecommendIntent")
    (h : truthy (getParam r.parameters "recipient_phone_number") = false) :
    webhook env (some r) =
      (textResponse "Sorry, I did not receive a valid phone number. Please try again.",
       ⟨[], []⟩) := by
  simp [webhook, hi, h]

/-- C7 witness: concrete instance with an empty parameter bag. -/
theorem C7_recommend_missing_witness :
    (⟨some "RecommendIntent", none, []⟩ : FulfillmentRequest).intentName =
      some "RecommendIntent" ∧
    truthy (getParam ([] : List (String × String)) "recipient_phone_number") = false ∧
    webhook envAllOk (some ⟨some "RecommendIntent", none, []⟩) =
      (textResponse "Sorry, I did not receive a valid phone number. Please try again.",
       ⟨[], []⟩) :=
  ⟨rfl, by decide,
   C7_recommend_missing envAllOk ⟨some "RecommendIntent", none, []⟩
     rfl (by decide)⟩

/-- C8 counterexample: a malformed (non-JSON) body — `req = None` — does
not produce the generic fallback: the `AttributeError` raised by
`req.get` is caught by the outer handler, which answers with the
"unexpected error" text instead. -/
theorem C8_counterexample :
    (webhook envAllOk none).1 ≠ fallbackResponse ∧
    (webhook envAllOk none).1 =
      textResponse "An unexpected error occurred: 'NoneType' object has no attribute 'get'. Please try again later." := by decide

/-- C8 (amended): a malformed body never crashes the handler (`webhook` is
a total function of the parsed request) and yields the top-level error
response — one message, one string, no side effects — rather than the
generic fallback. -/
theorem C8_malformed_body (env : Env) :
    webhook env none =
      (textResponse "An unexpected error occurred: 'NoneType' object has no attribute 'get'. Please try again later.",
       ⟨[], []⟩) ∧
    (webhook env none).1.messages ≠ [] :=
  ⟨rfl, by simp [webhook, textResponse]⟩

/-- C9: for every environment and every request — malformed body,
collaborator failures, unrecognized intent included — the response
contains at least one message holding at least one string; `webhook` being
a total Lean function, no failure escapes as an unhandled fault. -/
theorem C9_response_never_empty (env : Env) (req : Option FulfillmentRequest) :
    ∃ m, m ∈ (webhook env req).1.messages ∧ ∃ str, str ∈ m := by
  obtain ⟨s, hs⟩ := webhook_shape env req
  exact ⟨[s], by rw [hs]; exact List.mem_singleton.mpr rfl, s,
    List.mem_singleton.mpr rfl⟩

/-- C10: stronger than the spec's "at least one": in every branch the
response holds exactly one message whose text list holds exactly one
string. -/
theorem C10_exactly_one_message (env : Env) (req : Option FulfillmentRequest) :
    ∃ s, (webhook env req).1.messages = [[s]] :=
  webhook_shape env req

end Main
